import Mathlib

/-!
Shallow embedding of the manim-storyline library (src/manim_storyline), covering
the story registry of `StoryLineScene` (storyline.py), the `Transition` hierarchy
(transition.py) and in particular `PolyFitStoryLine.determine_stories_to_include`.

Python objects are modelled as follows:
- A manim mobject is a tagged value `Mobj` (object identity plus the 2D centre
  coordinates the library reads back; all geometry placement is delegated to the
  host framework, so a dot's centre is modelled as its stored coordinates).
- A `Story` (storyline.py:113) keeps its name, an object-identity tag standing
  for the identity-compared dataclass fields, and its frame / in_dot / out_dot
  mobjects.  Python dataclass equality on `Story` compares the frame and dot
  objects by identity, so structural equality of the model corresponds to it.
- The scene's `stories` dict is an insertion-ordered association list.
- Python exceptions are an explicit `Except` result.  `Story` is a plain
  `@dataclass` (eq=True, frozen=False), hence unhashable: using a `Story` object
  as a dict key raises `TypeError`, which is NOT caught by the `except KeyError`
  in `determine_stories_to_include` (transition.py:587-590).
-/

namespace ManimStoryline

/-- A manim mobject: an object-identity tag plus the centre coordinates that
`get_center` reports once the host framework has placed it. -/
structure Mobj where
  id : Nat
  x : Int
  y : Int
deriving DecidableEq, Repr

/-- A `Story` (storyline.py:113): its registered name, an object-identity tag
standing for the identity-compared remaining dataclass fields (scene reference,
buffers, directions), and its frame and dot mobjects. -/
structure Story where
  name : String
  objId : Nat
  frame : Mobj
  in_dot : Mobj
  out_dot : Mobj
deriving DecidableEq, Repr

/-- A value appearing in `stories_to_include_in_polyfit` /
`stories_to_exclude_from_polyfit` (transition.py:549-550), and also an element of
the heterogeneous list built by `determine_stories_to_include` (a resolved
`Story` object, or a raw name string kept by the `except KeyError` branch). -/
inductive StoryRef where
  | byName (s : String)
  | byObj (st : Story)
deriving DecidableEq, Repr

/-- The Python exceptions that can escape `determine_stories_to_include`. -/
inductive PyError where
  | typeError
  | keyError
  | attributeError
deriving DecidableEq, Repr

/-- The scene's `stories` dict (storyline.py:52): insertion-ordered mapping from
name to story. -/
abbrev Registry := List (String × Story)

/-- Python dict lookup `self.scene.stories[name]` for a string key: first (and in
a real dict, only) binding of the key. -/
def dictGet (reg : Registry) (k : String) : Option Story :=
  match reg with
  | [] => none
  | (k2, v) :: rest => if k2 = k then some v else dictGet rest k

/-- Python `list(self.scene.stories.values())`: values in insertion order. -/
def dictValues (reg : Registry) : List Story :=
  reg.map (fun p => p.2)

/-- The first loop of `determine_stories_to_include` (transition.py:586-590):
for each entry of `stories_to_include_in_polyfit`, try
`self.scene.stories[story]`; a missing string key raises `KeyError`, which is
caught and the raw string appended; a `Story` object used as a key raises
`TypeError` (unhashable dataclass), which is not caught and escapes. -/
def resolveInclude (reg : Registry) : List StoryRef → Except PyError (List StoryRef)
  | [] => Except.ok []
  | StoryRef.byObj _ :: _ => Except.error PyError.typeError
  | StoryRef.byName s :: rest =>
    match dictGet reg s with
    | some st => (resolveInclude reg rest).map (fun l => StoryRef.byObj st :: l)
    | none => (resolveInclude reg rest).map (fun l => StoryRef.byName s :: l)

/-- The membership test `story in X or story.name in X` (transition.py:595-597):
a `Story` element of `X` matches by dataclass equality, a string element matches
the story's name. -/
def inExclude (x : List StoryRef) (st : Story) : Bool :=
  x.any (fun r =>
    match r with
    | StoryRef.byObj s2 => decide (s2 = st)
    | StoryRef.byName n => decide (n = st.name))

/-- Python `list.remove`: drop the first element equal to `st` (no-op here if
absent; the call sites always pass a present element). -/
def removeFirst (l : List Story) (st : Story) : List Story :=
  match l with
  | [] => []
  | a :: rest => if a = st then rest else a :: removeFirst rest st

/-- The exclude loop of `determine_stories_to_include` (transition.py:593-598)
with CPython iterator semantics: the iterator keeps an index `k` into the list
that the loop body mutates, so removing the current element shifts the list and
the element that moved into its place is skipped.  `fuel` bounds the number of
iterations (the index grows by one per iteration, so the initial length of the
list always suffices). -/
def excludeLoopAux (x : List StoryRef) : Nat → List Story → Nat → List Story
  | 0, l, _ => l
  | fuel + 1, l, k =>
    if h : k < l.length then
      let st := l.get ⟨k, h⟩
      if inExclude x st then excludeLoopAux x fuel (removeFirst l st) (k + 1)
      else excludeLoopAux x fuel l (k + 1)
    else l

/-- Run the exclude loop on `l` from index 0. -/
def excludeLoop (x : List StoryRef) (l : List Story) : List Story :=
  excludeLoopAux x l.length l 0

/-- The debug statement `print(list(story.name for story in stories))`
(transition.py:599): reading `.name` on a raw string element (an include entry
that failed to resolve) raises `AttributeError` at the first such element. -/
def printNames : List StoryRef → Except PyError (List String)
  | [] => Except.ok []
  | StoryRef.byObj st :: rest => (printNames rest).map (fun l => st.name :: l)
  | StoryRef.byName _ :: _ => Except.error PyError.attributeError

/-- `PolyFitStoryLine.determine_stories_to_include` (transition.py:578-600):
resolve the include list against the scene registry; if the result is empty,
start from all registered stories and run the mutating exclude loop; finally the
debug print reads `.name` on every element. -/
def determine_stories_to_include (reg : Registry) (includeL excludeL : List StoryRef) :
    Except PyError (List StoryRef) :=
  match resolveInclude reg includeL with
  | Except.error e => Except.error e
  | Except.ok incl =>
    let stories :=
      if incl.isEmpty then (excludeLoop excludeL (dictValues reg)).map StoryRef.byObj
      else incl
    match printNames stories with
    | Except.error e => Except.error e
    | Except.ok _ => Except.ok stories

/-- The four stories of the repository's own test fixtures
(tests/test_transition.py): the automatically created origin (whose `in_dot`
is its `out_dot`, storyline.py:54) and story1..story3. -/
def originStory : Story := ⟨"origin", 0, ⟨1, 0, 0⟩, ⟨2, 0, 0⟩, ⟨2, 0, 0⟩⟩

/-- Test story "story1". -/
def story1 : Story := ⟨"story1", 1, ⟨3, 30, 0⟩, ⟨4, 30, -5⟩, ⟨5, 30, -5⟩⟩

/-- Test story "story2". -/
def story2 : Story := ⟨"story2", 2, ⟨6, 60, 0⟩, ⟨7, 60, -5⟩, ⟨8, 60, -5⟩⟩

/-- Test story "story3". -/
def story3 : Story := ⟨"story3", 3, ⟨9, 90, 0⟩, ⟨10, 90, -5⟩, ⟨11, 90, -5⟩⟩

/-- The scene registry of the test fixtures, in insertion order. -/
def testRegistry : Registry :=
  [("origin", originStory), ("story1", story1), ("story2", story2), ("story3", story3)]

/-- `TransitionError` (transition.py:18). -/
structure TransitionError where
  msg : String
deriving DecidableEq, Repr

/-- `StoryLineError` (storyline.py:13). -/
structure StoryLineError where
  msg : String
deriving DecidableEq, Repr

/-- A manim `Animation` class object (e.g. `manim.Create`), identified by a tag;
its behaviour is host-framework territory. -/
structure AnimClass where
  id : Nat
deriving DecidableEq, Repr

/-- The `target_frame_display` attribute (transition.py:45): a `bool` or a manim
`Animation` class.  Python truthiness: `bool b` is truthy iff `b`; a class object
is always truthy. -/
inductive FrameDisplay where
  | bool (b : Bool)
  | animation (a : AnimClass)
deriving DecidableEq, Repr

/-- An animation value handed to the host's blocking `play`: either the camera
auto-zoom over a list of mobjects with a margin, or an animation class applied
to a mobject (`self.target_frame_display(story.frame)`). -/
inductive Anim where
  | autoZoom (ms : List Mobj) (margin : Int)
  | applyClass (a : AnimClass) (target : Mobj)
deriving DecidableEq, Repr

/-- The message of the guard in `Transition.animate_frame_creation`
(transition.py:146-150). -/
def animateFrameCreationError : TransitionError :=
  ⟨"`Transition.animate_frame_creation` should only be called when Transition.target_frame_display is a Manim Animation. Use `Transition.add_frame_to_scene` instead."⟩

/-- `Transition.animate_frame_creation` (transition.py:127-153): raises
`TransitionError` when `type(self.target_frame_display) is bool`; otherwise
builds `self.target_frame_display(story.frame)`, adds the frame to the world and
returns the animation.  The result pairs the returned animation with the updated
world. -/
def animate_frame_creation (target_frame_display : FrameDisplay) (world : List Mobj)
    (story : Story) : Except TransitionError (Anim × List Mobj) :=
  match target_frame_display with
  | FrameDisplay.bool _ => Except.error animateFrameCreationError
  | FrameDisplay.animation a =>
    Except.ok (Anim.applyClass a story.frame, world ++ [story.frame])

/-- Host-framework errors surfacing through delegated calls. -/
inductive HostError where
  | typeError
deriving DecidableEq, Repr

/-- Model of the host framework's `camera.auto_zoom(mobjects, margin)`: per the
spec, the aggregate of displayed objects being empty is the failure case (the
host raises `TypeError` there, storyline.py:107-110 catches exactly that);
otherwise it yields the auto-zoom animation. -/
def camera_auto_zoom (ms : List Mobj) (margin : Int) : Except HostError Anim :=
  if ms.isEmpty then Except.error HostError.typeError
  else Except.ok (Anim.autoZoom ms margin)

/-- `StoryLineScene.show_world` (storyline.py:94-110): play the camera auto-zoom
over the world; a host `TypeError` is converted into a descriptive
`StoryLineError`. -/
def show_world (world : List Mobj) (margin : Int) : Except StoryLineError Anim :=
  match camera_auto_zoom world margin with
  | Except.error _ => Except.error ⟨"The world is probably empty"⟩
  | Except.ok a => Except.ok a

/-- The scene state touched by the embedded operations: the `stories` registry,
the `head` and `origin` stories and the `world` group (storyline.py:50-58).  The
host's displayed-mobjects set (`scene.add`) is not read by any embedded
operation and is elided. -/
structure SceneState where
  stories : Registry
  head : Story
  origin : Story
  world : List Mobj
deriving DecidableEq, Repr

/-- `StoryLineScene.setup` (storyline.py:50-58): fresh world and registry, the
origin story is created and registered (its `in_dot` is aliased to its
`out_dot`), `head = origin`, and the origin frame joins the world when
`add_origin_frame_to_world` (the `display_origin_frame` flag only affects the
elided displayed set). -/
def setup (_display_origin_frame add_origin_frame_to_world : Bool) : SceneState :=
  { stories := [("origin", originStory)]
    head := originStory
    origin := originStory
    world := if add_origin_frame_to_world then [originStory.frame] else [] }

/-- `StoryLineScene.add_to_world` (storyline.py:84-92) on a batch of mobjects. -/
def addWorld (sc : SceneState) (ms : List Mobj) : SceneState :=
  { sc with world := sc.world ++ ms }

/-- The frame added before the camera moves: `if self.target_frame_display is
True: self.add_frame_to_scene(target)` (transition.py:195-196, 304-305). -/
def frameAddBefore (tfd : FrameDisplay) (target : Story) : List Mobj :=
  match tfd with
  | FrameDisplay.bool true => [target.frame]
  | _ => []

/-- The frame added by `animate_frame_creation` when `self.target_frame_display`
is truthy and not `True`, i.e. an animation class (transition.py:202-203,
355-356). -/
def frameAddCreate (tfd : FrameDisplay) (target : Story) : List Mobj :=
  match tfd with
  | FrameDisplay.animation _ => [target.frame]
  | _ => []

/-- A `Slide` transition object (transition.py:156): its dataclass configuration
fields plus the attributes `_transition` records on the object
(transition.py:61-63).  The recorded scene reference is modelled by the
`sceneRecorded` flag. -/
structure SlideState where
  target_frame_display : FrameDisplay
  zoom_out_margin : Int
  zoom_in_margin : Int
  head : Option Story
  target : Option Story
  sceneRecorded : Bool
deriving DecidableEq, Repr

/-- A freshly constructed `Slide()` — in particular the single default argument
object of `transition_to` (storyline.py:79), which Python evaluates once at
function definition time and shares across all calls that omit the argument. -/
def slideInit : SlideState :=
  { target_frame_display := FrameDisplay.bool true
    zoom_out_margin := 5
    zoom_in_margin := 2
    head := none
    target := none
    sceneRecorded := false }

/-- `Slide._transition` (transition.py:184-205): record scene/head/target on the
transition object (`super()._transition`), add the target frame per
`target_frame_display`, and play the zoom-out / slide / zoom-in animations
(camera moves leave the modelled state untouched). -/
def slide_transition (sc : SceneState) (tr : SlideState) (target : Story) :
    SceneState × SlideState :=
  let tr2 : SlideState :=
    { tr with sceneRecorded := true, head := some sc.head, target := some target }
  (addWorld sc (frameAddBefore tr.target_frame_display target ++
    frameAddCreate tr.target_frame_display target), tr2)

/-- `StoryLineScene.transition_to` (storyline.py:79-82) with its (default)
`Slide` transition: run `transition._transition(story)` then set
`self.head = story`.  The transition object's updated state is returned because
the caller's object (in particular the shared default) keeps it. -/
def transition_to (sc : SceneState) (tr : SlideState) (story : Story) :
    SceneState × SlideState :=
  let res := slide_transition sc tr story
  ({ res.1 with head := story }, res.2)

/-- The value `PolyFitStoryLine.fit_polynomial` stores: the numeric least-squares
fit is delegated to `numpy.polynomial.polyfit` (host territory, floating point),
so the model records the arguments it was invoked with — in particular the
`degree` argument, which is what the embedded claims are about. -/
structure FitResult where
  xs : List Int
  ys : List Int
  degree : Int
deriving DecidableEq, Repr

/-- `PolyFitStoryLine.fit_polynomial` (transition.py:618-635), abstracted to the
record of its arguments (see `FitResult`). -/
def fit_polynomial (x y : List Int) (degree : Int) : FitResult :=
  ⟨x, y, degree⟩

/-- `PolyFitStoryLine.get_stories_dot_coords` (transition.py:602-616): the x and
y centre coordinates of the included stories' `out_dot`s (their placement by
`adjust_dot_position` is host geometry; the modelled coordinates are the dots'
stored centres). -/
def get_stories_dot_coords (stories : List Story) : List Int × List Int :=
  (stories.map (fun st => st.out_dot.x), stories.map (fun st => st.out_dot.y))

/-- Python `self.poly_degree or default` (transition.py:573): `None` and `0` are
falsy, any other integer is used as is. -/
def pyOrDegree : Option Int → Int → Int
  | none, d => d
  | some v, d => if v = 0 then d else v

/-- A `PolyFitStoryLine` transition object (transition.py:475): the dataclass
configuration fields the embedded claims read, plus the attributes its
`_transition` records (`stories`, `poly`, and the base-class scene/head/target).
The FreeStoryLine display flags, margins and arrow/line mobject fields are
configuration for elided host geometry and are not modelled. -/
structure PolyFitState where
  target_frame_display : FrameDisplay
  stories_to_include_in_polyfit : List StoryRef
  stories_to_exclude_from_polyfit : List StoryRef
  poly_degree : Option Int
  poly : Option FitResult
  stories : Option (List StoryRef)
  head : Option Story
  target : Option Story
  sceneRecorded : Bool
deriving DecidableEq, Repr

/-- A freshly constructed `PolyFitStoryLine()` with default arguments
(`__post_init__` sets `poly = None`, transition.py:556-557). -/
def polyFitInit : PolyFitState :=
  { target_frame_display := FrameDisplay.bool true
    stories_to_include_in_polyfit := []
    stories_to_exclude_from_polyfit := []
    poly_degree := none
    poly := none
    stories := none
    head := none
    target := none
    sceneRecorded := false }

/-- The world additions of `FreeStoryLine._transition` (transition.py:293-357)
with default display flags: the target frame per `target_frame_display`, the
head `out_dot` and the target `in_dot`.  The head2dot line, arrow and
dot2target lines are host geometry mobjects also appended to the world; they are
elided here (no embedded claim reads the world's contents). -/
def polyfit_world_adds (tfd : FrameDisplay) (head target : Story) : List Mobj :=
  frameAddBefore tfd target ++ [head.out_dot, target.in_dot] ++ frameAddCreate tfd target

/-- `PolyFitStoryLine._transition` (transition.py:559-576): record the scene,
compute `self.stories = self.determine_stories_to_include()` (whose exceptions
escape), adjust the out-dots (host geometry), fit once and for all when
`self.poly is None` with `degree = self.poly_degree or len(self.stories) - 1`,
then run the FreeStoryLine transition (which records head/target and plays the
camera/geometry animations). -/
def polyfit_transition (sc : SceneState) (tr : PolyFitState) (target : Story) :
    Except PyError (SceneState × PolyFitState) :=
  match determine_stories_to_include sc.stories tr.stories_to_include_in_polyfit
      tr.stories_to_exclude_from_polyfit with
  | Except.error e => Except.error e
  | Except.ok refs =>
    let included := refs.filterMap (fun r =>
      match r with
      | StoryRef.byObj st => some st
      | StoryRef.byName _ => none)
    let tr1 : PolyFitState :=
      if tr.poly.isNone then
        let degree := pyOrDegree tr.poly_degree ((refs.length : Int) - 1)
        let coords := get_stories_dot_coords included
        { tr with
          sceneRecorded := true, stories := some refs,
          poly := some (fit_polynomial coords.1 coords.2 degree) }
      else { tr with sceneRecorded := true, stories := some refs }
    let tr2 : PolyFitState := { tr1 with head := some sc.head, target := some target }
    Except.ok (addWorld sc (polyfit_world_adds tr.target_frame_display sc.head target), tr2)

/-- `StoryLineScene.transition_to` with a `PolyFitStoryLine` transition: run
`transition._transition(story)` then set `self.head = story`; an exception in
`_transition` escapes before the head is reassigned. -/
def polyfit_transition_to (sc : SceneState) (tr : PolyFitState) (target : Story) :
    Except PyError (SceneState × PolyFitState) :=
  match polyfit_transition sc tr target with
  | Except.error e => Except.error e
  | Except.ok res => Except.ok ({ res.1 with head := target }, res.2)

deriving instance DecidableEq for Except

/-- The outcome of a concrete `PolyFitStoryLine` run used by witnesses below: a
default `PolyFitStoryLine()` transitioning the freshly set-up scene to its
origin story (the fit goes through the single registered story, so the computed
degree is 0). -/
def demoPolyRes : SceneState × PolyFitState :=
  ({ stories := [("origin", originStory)]
     head := originStory
     origin := originStory
     world := [originStory.frame, originStory.frame, originStory.out_dot, originStory.in_dot] },
   { target_frame_display := FrameDisplay.bool true
     stories_to_include_in_polyfit := []
     stories_to_exclude_from_polyfit := []
     poly_degree := none
     poly := some ⟨[0], [0], 0⟩
     stories := some [StoryRef.byObj originStory]
     head := some originStory
     target := some originStory
     sceneRecorded := true })

/-- An exclude loop with an empty exclude list removes nothing. -/
theorem excludeLoopAux_nil (fuel : Nat) (l : List Story) (k : Nat) :
    excludeLoopAux [] fuel l k = l := by
  induction fuel generalizing l k with
  | zero => rfl
  | succ m ih =>
    unfold excludeLoopAux
    split
    · simp [inExclude, ih]
    · rfl

/-- The debug print succeeds on a list of resolved story objects and lists their
names. -/
theorem printNames_byObj (l : List Story) :
    printNames (l.map StoryRef.byObj) = Except.ok (l.map Story.name) := by
  induction l with
  | nil => rfl
  | cons a rest ih => simp [printNames, ih, Except.map]

/-- Resolving an include list of name strings never raises: each registered name
becomes its story object and each missing name stays a raw string. -/
theorem resolveInclude_names (reg : Registry) (names : List String) :
    resolveInclude reg (names.map StoryRef.byName) =
      Except.ok (names.map (fun n =>
        match dictGet reg n with
        | some st => StoryRef.byObj st
        | none => StoryRef.byName n)) := by
  induction names with
  | nil => rfl
  | cons a l ih =>
    simp only [List.map_cons, resolveInclude]
    cases hd : dictGet reg a <;> simp [hd, ih, Except.map]

/-- The debug print raises `AttributeError` as soon as the list holds a raw
string. -/
theorem printNames_error_of_byName_mem (l : List StoryRef) (n : String)
    (h : StoryRef.byName n ∈ l) :
    printNames l = Except.error PyError.attributeError := by
  induction l with
  | nil => cases h
  | cons a rest ih =>
    cases a with
    | byName s => rfl
    | byObj st =>
      rcases List.mem_cons.mp h with h1 | h2
      · cases h1
      · simp [printNames, ih h2, Except.map]

/-- `resolveInclude` appends exactly one element per include entry. -/
theorem resolveInclude_ok_length (reg : Registry) (l res : List StoryRef)
    (h : resolveInclude reg l = Except.ok res) : res.length = l.length := by
  induction l generalizing res with
  | nil =>
    simp only [resolveInclude] at h
    cases h
    rfl
  | cons a rest ih =>
    cases a with
    | byObj st => simp [resolveInclude] at h
    | byName s =>
      simp only [resolveInclude] at h
      cases hd : dictGet reg s with
      | some st =>
        rw [hd] at h
        cases hr : resolveInclude reg rest with
        | error e => rw [hr] at h; cases h
        | ok tail =>
          rw [hr] at h
          simp [Except.map] at h
          subst h
          simp [ih tail hr]
      | none =>
        rw [hd] at h
        cases hr : resolveInclude reg rest with
        | error e => rw [hr] at h; cases h
        | ok tail =>
          rw [hr] at h
          simp [Except.map] at h
          subst h
          simp [ih tail hr]

/-- With a non-empty include list, the exclude list is never consulted:
`determine_stories_to_include` yields the same outcome for any two exclude
lists. -/
theorem determine_ignores_exclude (reg : Registry) (includeL x1 x2 : List StoryRef)
    (h : includeL ≠ []) :
    determine_stories_to_include reg includeL x1 =
      determine_stories_to_include reg includeL x2 := by
  unfold determine_stories_to_include
  cases hres : resolveInclude reg includeL with
  | error e => rfl
  | ok incl =>
    have hlen : incl.length = includeL.length := resolveInclude_ok_length reg includeL incl hres
    have hne : incl.isEmpty = false := by
      cases incl with
      | nil =>
        cases includeL with
        | nil => cases h rfl
        | cons b bl => simp at hlen
      | cons b bl => rfl
    simp [hne]

/-- C1: the include list takes precedence over the exclude list, but referencing
an included story by the story object itself — as the repository's own
`test_determine_stories_to_include_with_include_and_exclude` does with
`I = (story1,)`, `X = (story1, story2)` — raises `TypeError`: the unhashable
`Story` dataclass is used as a dict key and only `KeyError` is caught, so no
result set is returned at all. -/
theorem claimC1_include_object_raises_type_error :
    determine_stories_to_include testRegistry [StoryRef.byObj story1]
      [StoryRef.byObj story1, StoryRef.byObj story2] = Except.error PyError.typeError := rfl

/-- C2: with an empty include list and exclude list `{story1, story2}` over the
registry `{origin, story1, story2, story3}`, the code returns
`{origin, story2, story3}`, not the claimed `{origin, story3}`: removing
`story1` while iterating over the same list shifts `story2` into the current
position and the iterator skips it. -/
theorem claimC2_exclude_skips_adjacent_story :
    determine_stories_to_include testRegistry []
        [StoryRef.byName "story1", StoryRef.byName "story2"] =
      Except.ok [StoryRef.byObj originStory, StoryRef.byObj story2, StoryRef.byObj story3] ∧
      determine_stories_to_include testRegistry []
          [StoryRef.byName "story1", StoryRef.byName "story2"] ≠
        Except.ok [StoryRef.byObj originStory, StoryRef.byObj story3] :=
  ⟨rfl, by decide⟩

/-- C3: with both the include and exclude lists empty,
`determine_stories_to_include` returns every registered story, in registry
order. -/
theorem claimC3_empty_lists_return_all_stories (reg : Registry) :
    determine_stories_to_include reg [] [] =
      Except.ok ((dictValues reg).map StoryRef.byObj) := by
  have h1 : excludeLoopAux ([] : List StoryRef) (dictValues reg).length (dictValues reg) 0 =
      dictValues reg := excludeLoopAux_nil _ _ _
  simp [determine_stories_to_include, resolveInclude, excludeLoop, h1, printNames_byObj]

/-- C4: name and object references to the same registered story are not
interchangeable in the include list: the name `"story1"` resolves to the story,
while the story object itself raises `TypeError` (unhashable dataclass used as a
dict key; only `KeyError` is caught). -/
theorem claimC4_name_and_object_forms_differ :
    determine_stories_to_include testRegistry [StoryRef.byName "story1"] [] =
        Except.ok [StoryRef.byObj story1] ∧
      determine_stories_to_include testRegistry [StoryRef.byObj story1] [] =
        Except.error PyError.typeError :=
  ⟨rfl, rfl⟩

/-- C5: `Transition.animate_frame_creation` raises the descriptive
`TransitionError` exactly when `target_frame_display` is a boolean; for an
animation class it returns the frame-creation animation and adds the frame to
the world. -/
theorem claimC5_animate_frame_creation_guard (world : List Mobj) (story : Story) :
    (∀ b : Bool, animate_frame_creation (FrameDisplay.bool b) world story =
        Except.error animateFrameCreationError) ∧
      (∀ a : AnimClass, animate_frame_creation (FrameDisplay.animation a) world story =
        Except.ok (Anim.applyClass a story.frame, world ++ [story.frame])) :=
  ⟨fun _ => rfl, fun _ => rfl⟩

/-- C6: `StoryLineScene.show_world` raises the descriptive `StoryLineError` when
the world is empty (the modelled host auto-zoom raises `TypeError` there) and
otherwise plays the camera auto-zoom over the world with the given margin. -/
theorem claimC6_show_world_guard (world : List Mobj) (margin : Int) :
    (world = [] → show_world world margin = Except.error ⟨"The world is probably empty"⟩) ∧
      (world ≠ [] → show_world world margin = Except.ok (Anim.autoZoom world margin)) := by
  constructor
  · intro h
    subst h
    rfl
  · intro h
    cases world with
    | nil => cases h rfl
    | cons a l => rfl

/-- Witness for C6 at the empty world and at a one-mobject world. -/
theorem claimC6_show_world_guard_witness :
    show_world [] 2 = Except.error ⟨"The world is probably empty"⟩ ∧
      show_world [⟨0, 0, 0⟩] 2 = Except.ok (Anim.autoZoom [⟨0, 0, 0⟩] 2) :=
  ⟨(claimC6_show_world_guard [] 2).1 rfl,
   (claimC6_show_world_guard [⟨0, 0, 0⟩] 2).2 (by decide)⟩

/-- C7: a missing story name in the include list does not propagate the registry
lookup failure: the call fails with `AttributeError` (raised by the debug print
reading `.name` on the kept raw string), not with the `KeyError` the lookup
raised. -/
theorem claimC7_missing_name_counterexample :
    determine_stories_to_include [("origin", originStory)] [StoryRef.byName "ghost"] [] =
        Except.error PyError.attributeError ∧
      (Except.error PyError.attributeError : Except PyError (List StoryRef)) ≠
        Except.error PyError.keyError :=
  ⟨rfl, by decide⟩

/-- C7 (amended): supplying a missing story name in the include list does not
propagate the registry `KeyError` — the lookup failure is caught and the raw
name kept — and the call then raises `AttributeError` when the name-listing
debug print reads `.name` on that string; no retry or recovery happens. -/
theorem claimC7_missing_name_raises_attribute_error (reg : Registry) (names : List String)
    (excludeL : List StoryRef) (h : ∃ n ∈ names, dictGet reg n = none) :
    determine_stories_to_include reg (names.map StoryRef.byName) excludeL =
      Except.error PyError.attributeError := by
  obtain ⟨n, hn, hmiss⟩ := h
  have hres := resolveInclude_names reg names
  have hmem : StoryRef.byName n ∈ names.map (fun n =>
      match dictGet reg n with
      | some st => StoryRef.byObj st
      | none => StoryRef.byName n) := by
    refine List.mem_map.mpr ⟨n, hn, ?_⟩
    rw [hmiss]
  have hne : (names.map (fun n =>
      match dictGet reg n with
      | some st => StoryRef.byObj st
      | none => StoryRef.byName n)).isEmpty = false := by
    cases names with
    | nil => cases hn
    | cons a l => rfl
  have hprint := printNames_error_of_byName_mem _ n hmem
  simp [determine_stories_to_include, hres, hne, hprint]

/-- Witness for C7 (amended): the name `"ghost"` is not registered and the call
fails with `AttributeError`. -/
theorem claimC7_missing_name_raises_attribute_error_witness :
    determine_stories_to_include [("origin", originStory)]
        (["ghost"].map StoryRef.byName) [] = Except.error PyError.attributeError :=
  claimC7_missing_name_raises_attribute_error [("origin", originStory)] ["ghost"] []
    ⟨"ghost", by simp, rfl⟩

/-- C8: the transition object used by `transition_to` is not discarded after the
call — here the module-level default `Slide()` (created once when
`transition_to` is defined and shared by every call that omits the argument)
still holds recorded state after one call, instead of being the fresh
`Slide()`. -/
theorem claimC8_default_transition_state_persists_counterexample :
    (transition_to (setup true true) slideInit story1).2 ≠ slideInit := by decide

/-- C8 (amended): transition-internal state persists on the transition object
across `transition_to` calls: after a call it retains the recorded head, target
and scene, and a later call overwrites them at entry rather than finding a
fresh object. -/
theorem claimC8_transition_state_persists (sc : SceneState) (tr : SlideState) (story : Story) :
    ((transition_to sc tr story).2.head = some sc.head ∧
      (transition_to sc tr story).2.target = some story ∧
      (transition_to sc tr story).2.sceneRecorded = true) ∧
      ∀ sc2 story2,
        (transition_to sc2 (transition_to sc tr story).2 story2).2.head = some sc2.head ∧
        (transition_to sc2 (transition_to sc tr story).2 story2).2.target = some story2 :=
  ⟨⟨rfl, rfl, rfl⟩, fun _ _ => ⟨rfl, rfl⟩⟩

/-- C9: after a normally returning `transition_to` the scene's head is the
target story and the stories registry is unchanged (shown for the default
`Slide` transition and for `PolyFitStoryLine`), and immediately after `setup`
the head is the automatically created origin story. -/
theorem claimC9_transition_to_postconditions (sc : SceneState) (tr : SlideState)
    (ptr : PolyFitState) (story : Story) (d a : Bool) :
    (transition_to sc tr story).1.head = story ∧
      (transition_to sc tr story).1.stories = sc.stories ∧
      (∀ res, polyfit_transition_to sc ptr story = Except.ok res →
        res.1.head = story ∧ res.1.stories = sc.stories) ∧
      (setup d a).head = (setup d a).origin := by
  refine ⟨rfl, rfl, ?_, rfl⟩
  intro res h
  rw [polyfit_transition_to, polyfit_transition] at h
  cases hD : determine_stories_to_include sc.stories ptr.stories_to_include_in_polyfit
      ptr.stories_to_exclude_from_polyfit with
  | error e =>
    rw [hD] at h
    cases h
  | ok refs =>
    rw [hD] at h
    cases h
    exact ⟨rfl, rfl⟩

/-- Witness for C9: a default `Slide` to story1 sets the head, and the concrete
`PolyFitStoryLine` run leaves the registry unchanged. -/
theorem claimC9_transition_to_postconditions_witness :
    (transition_to (setup true true) slideInit story1).1.head = story1 ∧
      demoPolyRes.1.stories = (setup true true).stories :=
  ⟨(claimC9_transition_to_postconditions (setup true true) slideInit polyFitInit story1
      true true).1,
   ((claimC9_transition_to_postconditions (setup true true) slideInit polyFitInit originStory
      true true).2.2.1 demoPolyRes rfl).2⟩

/-- C10: when `PolyFitStoryLine._transition` returns normally, a fit already
stored in `self.poly` is left unchanged (the fit happens at most once per
transition object); when `self.poly` is `None`, the stored fit's degree is
`poly_degree` when that is a non-zero integer and `n - 1` otherwise — in
particular both for `poly_degree = None` and for `poly_degree = 0`, where `n`
is the number of included stories. -/
theorem claimC10_polyfit_degree_and_fit_once (sc : SceneState) (tr : PolyFitState)
    (target : Story) (res : SceneState × PolyFitState)
    (h : polyfit_transition sc tr target = Except.ok res) :
    (∀ p, tr.poly = some p → res.2.poly = some p) ∧
      (tr.poly = none →
        ∃ refs, determine_stories_to_include sc.stories tr.stories_to_include_in_polyfit
            tr.stories_to_exclude_from_polyfit = Except.ok refs ∧
          ∃ fit, res.2.poly = some fit ∧
            fit.degree =
              match tr.poly_degree with
              | none => (refs.length : Int) - 1
              | some dg => if dg = 0 then (refs.length : Int) - 1 else dg) := by
  rw [polyfit_transition] at h
  cases hD : determine_stories_to_include sc.stories tr.stories_to_include_in_polyfit
      tr.stories_to_exclude_from_polyfit with
  | error e =>
    rw [hD] at h
    cases h
  | ok refs =>
    rw [hD] at h
    cases h
    constructor
    · intro p hp
      simp [hp]
    · intro hnone
      refine ⟨refs, rfl, ?_⟩
      simp only [hnone]
      refine ⟨_, rfl, ?_⟩
      cases tr.poly_degree with
      | none => rfl
      | some dg => rfl

/-- Witness for C10: the concrete default `PolyFitStoryLine` run over the single
registered story stores a fit of degree `1 - 1 = 0`. -/
theorem claimC10_polyfit_degree_and_fit_once_witness :
    ∃ refs, determine_stories_to_include (setup true true).stories
        polyFitInit.stories_to_include_in_polyfit
        polyFitInit.stories_to_exclude_from_polyfit = Except.ok refs ∧
      ∃ fit, demoPolyRes.2.poly = some fit ∧
        fit.degree =
          match polyFitInit.poly_degree with
          | none => (refs.length : Int) - 1
          | some dg => if dg = 0 then (refs.length : Int) - 1 else dg :=
  (claimC10_polyfit_degree_and_fit_once (setup true true) polyFitInit originStory demoPolyRes
    rfl).2 rfl

end ManimStoryline
